import Mathlib

/-!
Shallow embedding of `LotteryServer.play_lottery` from `src/main.py`
(astrbot_plugin_lotto).

Modelling choices, each tied to a line of the source:

* The `users` table is a partial map from `user_id` strings to rows holding
  the three columns read by the query at line 46:
  `balance`, `last_lottery_date`, `daily_lottery_count`.
* `balance` is a SQLite INTEGER, modelled as `Int` (the code tests
  `balance <= 0` at line 66, so negative values must be representable).
* The `DATE` column `last_lottery_date` is written only as
  `today.isoformat()` (line 103) and read back through
  `datetime.strptime(last_date, '%Y-%m-%d').date()` (line 59), which are
  mutually inverse on valid dates; the column is therefore modelled as an
  `Option Date` of structured calendar dates.  A NULL (or empty) column is
  `none`, matching the falsiness test `if last_date and ...` at line 59.
* `daily_lottery_count` is nullable (the `ALTER TABLE` at line 21 may
  leave NULLs for pre-existing rows), hence `Option Int`; the code reads it
  as `user[2] or 0` (line 56), i.e. `Option.getD 0` (Python `0 or 0 = 0`).
* `random.randint(1, 100)` (line 72) is a parameter `rand : Nat`; callers
  that model a real draw assume `1 ≤ rand ∧ rand ≤ 100`.
* `self._get_random_user(user_id)` (line 83) runs on a separate
  connection; it is a parameter `pick : Except DbErr (Option String)`:
  `Except.ok (some t)` models finding the row `t` (the SQL guarantees
  `t ≠ user_id` and that `t` exists), `Except.ok none` models an empty
  result, and `Except.error e` models the call raising.
* Exception flow (lines 115-121): `sqlite3.OperationalError` is caught at
  line 115 and answered with the busy message WITHOUT a rollback; the
  surrounding `with sqlite3.connect(...)` block then exits cleanly, and the
  `sqlite3.Connection` context manager COMMITS the open transaction on a
  clean exit, so every mutation issued before the exception is persisted.
  Any other exception is caught at line 118, which calls `conn.rollback()`,
  restoring the store to its state at the start of the transaction.
  With `isolation_level = 'IMMEDIATE'` (line 42) the transaction opens at
  the first UPDATE (line 70), so a rollback restores the pre-call store.
-/

namespace Lotto

/-- Calendar date (UTC), the parsed content of the `DATE` column and of
`datetime.now(tz=timezone.utc).date()` at line 57. -/
structure Date where
  year : Nat
  month : Nat
  day : Nat
deriving DecidableEq, Repr

/-- One row of the `users` table, restricted to the columns touched by
`play_lottery` (line 46). -/
structure UserRow where
  balance : Int
  last_lottery_date : Option Date
  daily_lottery_count : Option Int
deriving DecidableEq, Repr

/-- The `users` table: a partial map from `user_id` to its row. -/
def Store : Type := String → Option UserRow

/-- Model of `UPDATE users SET balance = 0 WHERE user_id = ?` (line 70)
generalised to an arbitrary amount: rows with another id are untouched, a
missing row stays missing. -/
def setBalance (s : Store) (uid : String) (amount : Int) : Store :=
  fun u => if u = uid then (s u).map (fun r => { r with balance := amount }) else s u

/-- Model of `UPDATE users SET balance = balance + ? WHERE user_id = ?`
(lines 85 and 96): an atomic increment of one row's balance. -/
def addBalance (s : Store) (uid : String) (delta : Int) : Store :=
  fun u => if u = uid then (s u).map (fun r => { r with balance := r.balance + delta }) else s u

/-- Model of the metadata update at lines 99-103: set
`last_lottery_date = today.isoformat()` and `daily_lottery_count = new_count`. -/
def recordPlay (s : Store) (uid : String) (date : Date) (count : Int) : Store :=
  fun u =>
    if u = uid then
      (s u).map (fun r => { r with last_lottery_date := some date, daily_lottery_count := some count })
    else s u

/-- Exception classes that can escape the store calls inside the `try`
block: `sqlite3.OperationalError` (caught at line 115) versus every other
exception (caught at line 118). -/
inductive DbErr where
  | operational
  | other
deriving DecidableEq, Repr

/-- The dict returned by `play_lottery`: either a failure
`{'success': False, 'msg': ...}` or the success payload of lines 106-113,
whose `balance` field is `result_amount` (line 111). -/
inductive PlayResult where
  | failure (msg : String)
  | success (msg : String) (bet result balance remaining_attempts : Int)
deriving DecidableEq, Repr

/-- The `success` field of the returned dict. -/
def PlayResult.isSuccess : PlayResult → Bool
  | .failure _ => false
  | .success _ _ _ _ _ => true

/-- `self.max_daily_attempts = 10` (line 14; the plugin instantiates
`LotteryServer()` with the default at line 125). -/
def max_daily_attempts : Int := 10

def msgUserNotFound : String := "用户不存在"
def msgDailyLimit : String := "今日次数已用完"
def msgInsufficient : String := "余额不足"
def msgLoss : String := "💸 输的一塌糊涂！所有喵喵币都打水漂了"
def msgRefund : String := "🛡️ 安如磐石！喵喵币如数奉还"
def msgDouble : String := "🍀 有点幸运！获得双倍喵喵币"
def msgTransferFallback : String := "🌀 斗转星移失败，没有其他用户，喵喵币已退回"
def msgJackpot : String := "🌈 天降之子！获得十倍喵喵币！！"
def msgBusy : String := "系统繁忙，请稍后再试"
def msgSystemError : String := "系统错误"

/-- The f-string at line 87:
`f"🌀 斗转星移！{bet_amount}喵喵币已转移至用户[{target_user[:4]}****]"`. -/
def transferMsg (bet_amount : Int) (target : String) : String :=
  "🌀 斗转星移！" ++ toString bet_amount ++ "喵喵币已转移至用户[" ++ target.take 4 ++ "****]"

/-- The condition at line 59:
`last_date and datetime.strptime(last_date, '%Y-%m-%d').date() == today`. -/
def sameDay (last_date : Option Date) (today : Date) : Bool :=
  match last_date with
  | some d => d = today
  | none => false

/-- The five weighted outcomes of the draw at lines 72-94. -/
inductive Outcome where
  | loss
  | refund
  | double
  | transfer
  | jackpot
deriving DecidableEq, Repr

/-- Branch selection on the draw, following the range tests of
lines 73, 76, 79, 82 verbatim. -/
def outcomeOf (rand : Nat) : Outcome :=
  if rand ≤ 50 then .loss
  else if rand ≤ 70 then .refund
  else if rand ≤ 80 then .double
  else if rand ≤ 99 then .transfer
  else .jackpot

/-- The settlement tail shared by all five outcome branches: credit
`result_amount` to the player (lines 96-97), persist the play metadata
(lines 99-103), commit (line 105) and build the success dict
(lines 106-113). `s1` already carries the stake deduction of line 70 and,
for a transfer, the credit of lines 85-86. -/
def finishPlay (s1 : Store) (today : Date) (user_id : String)
    (bet_amount new_count result_amount : Int) (msg : String) : PlayResult × Store :=
  let s2 := addBalance s1 user_id result_amount
  let s3 := recordPlay s2 user_id today new_count
  (PlayResult.success msg bet_amount result_amount result_amount
      (max_daily_attempts - new_count), s3)

/-- Lines 66-113: everything after `new_count` has been determined.
Checks the balance (line 66), stakes it (lines 69-70), resolves the draw
(lines 72-94) and settles.  In the transfer branch the modelled
`_get_random_user` call may raise: `DbErr.operational` lands in the handler
at line 115, which answers busy without rolling back, so the context
manager commits the store as mutated so far (`setBalance s user_id 0`);
any other exception lands at line 118, whose `conn.rollback()` restores
the original store `s`. -/
def settle (s : Store) (today : Date) (rand : Nat)
    (pick : Except DbErr (Option String)) (user_id : String)
    (balance new_count : Int) : PlayResult × Store :=
  if balance ≤ 0 then (PlayResult.failure msgInsufficient, s)
  else
    let bet_amount := balance
    let s1 := setBalance s user_id 0
    if rand ≤ 50 then
      finishPlay s1 today user_id bet_amount new_count 0 msgLoss
    else if rand ≤ 70 then
      finishPlay s1 today user_id bet_amount new_count bet_amount msgRefund
    else if rand ≤ 80 then
      finishPlay s1 today user_id bet_amount new_count (bet_amount * 2) msgDouble
    else if rand ≤ 99 then
      match pick with
      | Except.ok (some target) =>
          finishPlay (addBalance s1 target bet_amount) today user_id
            bet_amount new_count 0 (transferMsg bet_amount target)
      | Except.ok none =>
          finishPlay s1 today user_id bet_amount new_count bet_amount msgTransferFallback
      | Except.error DbErr.operational => (PlayResult.failure msgBusy, s1)
      | Except.error DbErr.other => (PlayResult.failure msgSystemError, s)
    else
      finishPlay s1 today user_id bet_amount new_count (bet_amount * 10) msgJackpot

/-- `LotteryServer.play_lottery` (lines 40-121).  `today` is the UTC date
of line 57, `rand` the draw of line 72, `pick` the outcome of the
`_get_random_user` call of line 83 (consulted only in the transfer
branch, as in the source). -/
def play_lottery (s : Store) (today : Date) (rand : Nat)
    (pick : Except DbErr (Option String)) (user_id : String) : PlayResult × Store :=
  match s user_id with
  | none => (PlayResult.failure msgUserNotFound, s)
  | some user =>
    let used_count : Int := user.daily_lottery_count.getD 0
    if sameDay user.last_lottery_date today then
      if used_count ≥ max_daily_attempts then
        (PlayResult.failure msgDailyLimit, s)
      else
        settle s today rand pick user_id user.balance (used_count + 1)
    else
      settle s today rand pick user_id user.balance 1

/-- The `new_count` computed at lines 59-64 for an eligible user. -/
def newCountOf (user : UserRow) (today : Date) : Int :=
  if sameDay user.last_lottery_date today then user.daily_lottery_count.getD 0 + 1 else 1

/-! ### Reduction lemmas for the store mutators -/

theorem setBalance_self (s : Store) (uid : String) (amt : Int) :
    setBalance s uid amt uid = (s uid).map (fun r => { r with balance := amt }) := by
  simp [setBalance]

theorem setBalance_ne (s : Store) (uid v : String) (amt : Int) (h : v ≠ uid) :
    setBalance s uid amt v = s v := by
  simp [setBalance, h]

theorem addBalance_self (s : Store) (uid : String) (d : Int) :
    addBalance s uid d uid = (s uid).map (fun r => { r with balance := r.balance + d }) := by
  simp [addBalance]

theorem addBalance_ne (s : Store) (uid v : String) (d : Int) (h : v ≠ uid) :
    addBalance s uid d v = s v := by
  simp [addBalance, h]

theorem finishPlay_fst (s1 : Store) (today : Date) (uid : String)
    (bet nc r : Int) (msg : String) :
    (finishPlay s1 today uid bet nc r msg).1 =
      PlayResult.success msg bet r r (max_daily_attempts - nc) := rfl

theorem finishPlay_snd_self (s1 : Store) (today : Date) (uid : String)
    (bet nc r : Int) (msg : String) (row : UserRow) (h : s1 uid = some row) :
    (finishPlay s1 today uid bet nc r msg).2 uid =
      some { balance := row.balance + r, last_lottery_date := some today,
             daily_lottery_count := some nc } := by
  simp [finishPlay, recordPlay, addBalance, h]

theorem finishPlay_snd_ne (s1 : Store) (today : Date) (uid v : String)
    (bet nc r : Int) (msg : String) (h : v ≠ uid) :
    (finishPlay s1 today uid bet nc r msg).2 v = s1 v := by
  simp [finishPlay, recordPlay, addBalance, h]

theorem record_add_self (s1 : Store) (uid : String) (today : Date) (nc r : Int)
    (row1 : UserRow) (h : s1 uid = some row1) :
    recordPlay (addBalance s1 uid r) uid today nc uid =
      some ⟨row1.balance + r, some today, some nc⟩ := by
  simp [recordPlay, addBalance, h]

theorem record_add_ne (s1 : Store) (uid v : String) (today : Date) (nc r : Int)
    (h : v ≠ uid) :
    recordPlay (addBalance s1 uid r) uid today nc v = s1 v := by
  simp [recordPlay, addBalance, h]

/-! ### Reduction lemmas for `play_lottery` and `settle` -/

theorem play_lottery_absent (s : Store) (today : Date) (rand : Nat)
    (pick : Except DbErr (Option String)) (uid : String) (h : s uid = none) :
    play_lottery s today rand pick uid = (PlayResult.failure msgUserNotFound, s) := by
  simp only [play_lottery, h]

theorem play_lottery_limit (s : Store) (today : Date) (rand : Nat)
    (pick : Except DbErr (Option String)) (uid : String) (user : UserRow)
    (hu : s uid = some user) (hd : sameDay user.last_lottery_date today = true)
    (hc : max_daily_attempts ≤ user.daily_lottery_count.getD 0) :
    play_lottery s today rand pick uid = (PlayResult.failure msgDailyLimit, s) := by
  simp only [play_lottery, hu, hd, if_true, ge_iff_le, hc, if_pos]

theorem play_lottery_eligible (s : Store) (today : Date) (rand : Nat)
    (pick : Except DbErr (Option String)) (uid : String) (user : UserRow)
    (hu : s uid = some user)
    (hel : sameDay user.last_lottery_date today = true →
      user.daily_lottery_count.getD 0 < max_daily_attempts) :
    play_lottery s today rand pick uid =
      settle s today rand pick uid user.balance (newCountOf user today) := by
  by_cases h : sameDay user.last_lottery_date today
  · simp only [play_lottery, hu, h, if_true, ge_iff_le, not_le.mpr (hel h), if_false,
      newCountOf]
  · simp [play_lottery, hu, h, newCountOf]

theorem settle_insufficient (s : Store) (today : Date) (rand : Nat)
    (pick : Except DbErr (Option String)) (uid : String) (balance nc : Int)
    (h : balance ≤ 0) :
    settle s today rand pick uid balance nc = (PlayResult.failure msgInsufficient, s) := by
  simp only [settle, h, if_true]

theorem settle_loss (s : Store) (today : Date) (rand : Nat)
    (pick : Except DbErr (Option String)) (uid : String) (balance nc : Int)
    (h : ¬ balance ≤ 0) (hr : rand ≤ 50) :
    settle s today rand pick uid balance nc =
      finishPlay (setBalance s uid 0) today uid balance nc 0 msgLoss := by
  simp only [settle, h, if_false, hr, if_true]

theorem settle_refund (s : Store) (today : Date) (rand : Nat)
    (pick : Except DbErr (Option String)) (uid : String) (balance nc : Int)
    (h : ¬ balance ≤ 0) (hr1 : 50 < rand) (hr2 : rand ≤ 70) :
    settle s today rand pick uid balance nc =
      finishPlay (setBalance s uid 0) today uid balance nc balance msgRefund := by
  simp only [settle, h, if_false, not_le.mpr hr1, hr2, if_true]

theorem settle_double (s : Store) (today : Date) (rand : Nat)
    (pick : Except DbErr (Option String)) (uid : String) (balance nc : Int)
    (h : ¬ balance ≤ 0) (hr1 : 70 < rand) (hr2 : rand ≤ 80) :
    settle s today rand pick uid balance nc =
      finishPlay (setBalance s uid 0) today uid balance nc (balance * 2) msgDouble := by
  have h50 : ¬ rand ≤ 50 := by omega
  simp only [settle, h, if_false, h50, not_le.mpr hr1, hr2, if_true]

theorem settle_transfer_found (s : Store) (today : Date) (rand : Nat)
    (uid t : String) (balance nc : Int)
    (h : ¬ balance ≤ 0) (hr1 : 80 < rand) (hr2 : rand ≤ 99) :
    settle s today rand (Except.ok (some t)) uid balance nc =
      finishPlay (addBalance (setBalance s uid 0) t balance) today uid
        balance nc 0 (transferMsg balance t) := by
  have h50 : ¬ rand ≤ 50 := by omega
  have h70 : ¬ rand ≤ 70 := by omega
  simp only [settle, h, if_false, h50, h70, not_le.mpr hr1, hr2, if_true]

theorem settle_transfer_fallback (s : Store) (today : Date) (rand : Nat)
    (uid : String) (balance nc : Int)
    (h : ¬ balance ≤ 0) (hr1 : 80 < rand) (hr2 : rand ≤ 99) :
    settle s today rand (Except.ok none) uid balance nc =
      finishPlay (setBalance s uid 0) today uid balance nc balance
        msgTransferFallback := by
  have h50 : ¬ rand ≤ 50 := by omega
  have h70 : ¬ rand ≤ 70 := by omega
  simp only [settle, h, if_false, h50, h70, not_le.mpr hr1, hr2, if_true]

theorem settle_jackpot (s : Store) (today : Date) (rand : Nat)
    (pick : Except DbErr (Option String)) (uid : String) (balance nc : Int)
    (h : ¬ balance ≤ 0) (hr : 99 < rand) :
    settle s today rand pick uid balance nc =
      finishPlay (setBalance s uid 0) today uid balance nc (balance * 10) msgJackpot := by
  have h50 : ¬ rand ≤ 50 := by omega
  have h70 : ¬ rand ≤ 70 := by omega
  have h80 : ¬ rand ≤ 80 := by omega
  simp only [settle, h, if_false, h50, h70, h80, not_le.mpr hr]

theorem settle_busy (s : Store) (today : Date) (rand : Nat)
    (uid : String) (balance nc : Int)
    (h : ¬ balance ≤ 0) (hr1 : 80 < rand) (hr2 : rand ≤ 99) :
    settle s today rand (Except.error DbErr.operational) uid balance nc =
      (PlayResult.failure msgBusy, setBalance s uid 0) := by
  have h50 : ¬ rand ≤ 50 := by omega
  have h70 : ¬ rand ≤ 70 := by omega
  simp only [settle, h, if_false, h50, h70, not_le.mpr hr1, hr2, if_true]

theorem settle_rollback (s : Store) (today : Date) (rand : Nat)
    (uid : String) (balance nc : Int)
    (h : ¬ balance ≤ 0) (hr1 : 80 < rand) (hr2 : rand ≤ 99) :
    settle s today rand (Except.error DbErr.other) uid balance nc =
      (PlayResult.failure msgSystemError, s) := by
  have h50 : ¬ rand ≤ 50 := by omega
  have h70 : ¬ rand ≤ 70 := by omega
  simp only [settle, h, if_false, h50, h70, not_le.mpr hr1, hr2, if_true]

/-- The fallback message of line 91 differs from the transfer message of
line 87 for every bet amount and every target: the two strings already
disagree at their seventh character. -/
theorem transferFallback_ne_transferMsg (b : Int) (t : String) :
    msgTransferFallback ≠ transferMsg b t := by
  intro h
  have hd := congrArg String.data h
  rw [msgTransferFallback, transferMsg] at hd
  simp only [String.data_append, List.append_assoc] at hd
  have h6 := congrArg (fun l => l[6]?) hd
  simp only at h6
  rw [List.getElem?_append_left (by decide)] at h6
  exact absurd h6 (by decide)

/-- Every draw settles an eligible positive-balance play successfully when
the random-user query does not raise: all five outcome branches end in
`finishPlay`, whose result dict is a success whose `result` and `balance`
fields coincide and whose `remaining_attempts` is `max_daily_attempts`
minus the new count. -/
theorem settle_ok_success (s : Store) (today : Date) (rand : Nat)
    (pick : Option String) (uid : String) (balance nc : Int) (h : ¬ balance ≤ 0) :
    ∃ msg r s2, settle s today rand (Except.ok pick) uid balance nc
      = (PlayResult.success msg balance r r (max_daily_attempts - nc), s2) := by
  rcases le_or_lt rand 50 with h50 | h50
  · exact ⟨_, _, _, settle_loss s today rand _ uid balance nc h h50⟩
  rcases le_or_lt rand 70 with h70 | h70
  · exact ⟨_, _, _, settle_refund s today rand _ uid balance nc h h50 h70⟩
  rcases le_or_lt rand 80 with h80 | h80
  · exact ⟨_, _, _, settle_double s today rand _ uid balance nc h h70 h80⟩
  rcases le_or_lt rand 99 with h99 | h99
  · cases pick with
    | some t => exact ⟨_, _, _, settle_transfer_found s today rand uid t balance nc h h80 h99⟩
    | none => exact ⟨_, _, _, settle_transfer_fallback s today rand uid balance nc h h80 h99⟩
  · exact ⟨_, _, _, settle_jackpot s today rand _ uid balance nc h h99⟩

/-- Full characterisation of a successful settlement: the produced row of
the player carries the payout as its whole balance together with the fresh
metadata, and the payout is determined by the draw range.  The hypothesis
`hpick` records the contract of `_get_random_user` (line 34): its SQL
`WHERE user_id != ?` can never return the player. -/
theorem settle_ok_full (s : Store) (today : Date) (rand : Nat)
    (pick : Option String) (uid : String) (balance nc : Int) (row : UserRow)
    (h : ¬ balance ≤ 0) (hrow : s uid = some row)
    (hpick : ∀ t, pick = some t → t ≠ uid) :
    ∃ msg r s2, settle s today rand (Except.ok pick) uid balance nc
      = (PlayResult.success msg balance r r (max_daily_attempts - nc), s2) ∧
      s2 uid = some ⟨r, some today, some nc⟩ ∧
      ((rand ≤ 50 ∧ r = 0 ∧ msg = msgLoss) ∨
       (50 < rand ∧ rand ≤ 70 ∧ r = balance ∧ msg = msgRefund) ∨
       (70 < rand ∧ rand ≤ 80 ∧ r = balance * 2 ∧ msg = msgDouble) ∨
       (80 < rand ∧ rand ≤ 99 ∧ ∃ t, pick = some t ∧ r = 0 ∧
          msg = transferMsg balance t) ∨
       (80 < rand ∧ rand ≤ 99 ∧ pick = none ∧ r = balance ∧
          msg = msgTransferFallback) ∨
       (99 < rand ∧ r = balance * 10 ∧ msg = msgJackpot)) := by
  have hset : setBalance s uid 0 uid = some { row with balance := 0 } := by
    rw [setBalance_self, hrow]; rfl
  rcases le_or_lt rand 50 with h50 | h50
  · rw [settle_loss s today rand _ uid balance nc h h50]
    refine ⟨_, _, _, rfl, ?_, Or.inl ⟨h50, rfl, rfl⟩⟩
    rw [record_add_self _ _ _ _ _ _ hset]; simp
  rcases le_or_lt rand 70 with h70 | h70
  · rw [settle_refund s today rand _ uid balance nc h h50 h70]
    refine ⟨_, _, _, rfl, ?_, Or.inr (Or.inl ⟨h50, h70, rfl, rfl⟩)⟩
    rw [record_add_self _ _ _ _ _ _ hset]; simp
  rcases le_or_lt rand 80 with h80 | h80
  · rw [settle_double s today rand _ uid balance nc h h70 h80]
    refine ⟨_, _, _, rfl, ?_, Or.inr (Or.inr (Or.inl ⟨h70, h80, rfl, rfl⟩))⟩
    rw [record_add_self _ _ _ _ _ _ hset]; simp
  rcases le_or_lt rand 99 with h99 | h99
  · cases pick with
    | some t =>
        have hne : t ≠ uid := hpick t rfl
        have hset2 : addBalance (setBalance s uid 0) t balance uid
            = some { row with balance := 0 } := by
          rw [addBalance_ne _ _ _ _ (Ne.symm hne), hset]
        rw [settle_transfer_found s today rand uid t balance nc h h80 h99]
        refine ⟨_, _, _, rfl, ?_,
          Or.inr (Or.inr (Or.inr (Or.inl ⟨h80, h99, t, rfl, rfl, rfl⟩)))⟩
        rw [record_add_self _ _ _ _ _ _ hset2]; simp
    | none =>
        rw [settle_transfer_fallback s today rand uid balance nc h h80 h99]
        refine ⟨_, _, _, rfl, ?_,
          Or.inr (Or.inr (Or.inr (Or.inr (Or.inl ⟨h80, h99, rfl, rfl, rfl⟩))))⟩
        rw [record_add_self _ _ _ _ _ _ hset]; simp
  · rw [settle_jackpot s today rand _ uid balance nc h h99]
    refine ⟨_, _, _, rfl, ?_,
      Or.inr (Or.inr (Or.inr (Or.inr (Or.inr ⟨h99, rfl, rfl⟩))))⟩
    rw [record_add_self _ _ _ _ _ _ hset]; simp

/-! ### Range lemmas for the outcome function -/

theorem outcomeOf_loss (rand : Nat) (h : rand ≤ 50) :
    outcomeOf rand = Outcome.loss := by
  unfold outcomeOf
  rw [if_pos h]

theorem outcomeOf_refund (rand : Nat) (h1 : 50 < rand) (h2 : rand ≤ 70) :
    outcomeOf rand = Outcome.refund := by
  unfold outcomeOf
  rw [if_neg (by omega), if_pos h2]

theorem outcomeOf_double (rand : Nat) (h1 : 70 < rand) (h2 : rand ≤ 80) :
    outcomeOf rand = Outcome.double := by
  unfold outcomeOf
  rw [if_neg (by omega), if_neg (by omega), if_pos h2]

theorem outcomeOf_transfer (rand : Nat) (h1 : 80 < rand) (h2 : rand ≤ 99) :
    outcomeOf rand = Outcome.transfer := by
  unfold outcomeOf
  rw [if_neg (by omega), if_neg (by omega), if_neg (by omega), if_pos h2]

theorem outcomeOf_jackpot (rand : Nat) (h : 99 < rand) :
    outcomeOf rand = Outcome.jackpot := by
  unfold outcomeOf
  rw [if_neg (by omega), if_neg (by omega), if_neg (by omega), if_neg (by omega)]

/-! ### Claim C1 -/

/-- Concrete one-user store for the C1 failing input. -/
def c1store : Store := fun u => if u = "alice" then some ⟨100, none, none⟩ else none

/-- C1: the claim says every failure after the stake deduction rolls the
transaction back on every error branch, including the
Busy/OperationalError branch.  This theorem evaluates the code on a
failing input: user `alice` with balance 100, draw 85 (transfer branch),
and `_get_random_user` raising `sqlite3.OperationalError`.  The handler at
line 115 returns the busy failure without `conn.rollback()`, and the
`with sqlite3.connect(...)` context manager commits the open transaction
on that clean exit, so the persisted balance is 0, not 100: the stake
deduction survives with no payout.  The last conjunct shows the generic
handler at line 118 does roll back, isolating the bug to the
OperationalError branch. -/
theorem C1_busy_commits_partial_settlement :
    c1store "alice" = some ⟨100, none, none⟩ ∧
    play_lottery c1store ⟨2026, 10, 12⟩ 85 (Except.error DbErr.operational) "alice"
      = (PlayResult.failure msgBusy, setBalance c1store "alice" 0) ∧
    (play_lottery c1store ⟨2026, 10, 12⟩ 85 (Except.error DbErr.operational) "alice").2 "alice"
      = some ⟨0, none, none⟩ ∧
    play_lottery c1store ⟨2026, 10, 12⟩ 85 (Except.error DbErr.other) "alice"
      = (PlayResult.failure msgSystemError, c1store) := by
  have hel : sameDay (UserRow.last_lottery_date ⟨100, none, none⟩) ⟨2026, 10, 12⟩ = true →
      Option.getD (UserRow.daily_lottery_count ⟨100, none, none⟩) 0 < max_daily_attempts :=
    by decide
  refine ⟨rfl, ?_, ?_, ?_⟩
  · rw [play_lottery_eligible c1store ⟨2026, 10, 12⟩ 85 _ "alice" ⟨100, none, none⟩ rfl hel]
    exact settle_busy _ _ _ _ _ _ (by decide) (by omega) (by omega)
  · rw [play_lottery_eligible c1store ⟨2026, 10, 12⟩ 85 _ "alice" ⟨100, none, none⟩ rfl hel]
    rw [settle_busy _ _ _ _ _ _ (by decide) (by omega) (by omega)]
    rfl
  · rw [play_lottery_eligible c1store ⟨2026, 10, 12⟩ 85 _ "alice" ⟨100, none, none⟩ rfl hel]
    exact settle_rollback _ _ _ _ _ _ (by decide) (by omega) (by omega)

/-! ### Claim C4 -/

/-- C4 (amended): with `last_play_date = today`, a stored count at or above
`max_daily_attempts` always fails with the daily-limit message and no
mutation, for every draw and every random-user answer; a stored count of
`max_daily_attempts - 1` together with a POSITIVE balance succeeds with
`remaining_attempts = 0`.  (The positive-balance hypothesis is forced: the
original claim is refuted on a zero-balance user by `C4_counterexample`.) -/
theorem C4_daily_limit_boundary (s : Store) (today : Date) (rand : Nat)
    (pick : Option String) (uid : String) (user : UserRow)
    (hu : s uid = some user) (hd : user.last_lottery_date = some today) :
    (max_daily_attempts ≤ user.daily_lottery_count.getD 0 →
      play_lottery s today rand (Except.ok pick) uid
        = (PlayResult.failure msgDailyLimit, s)) ∧
    (user.daily_lottery_count = some (max_daily_attempts - 1) → 0 < user.balance →
      ∃ msg r s2, play_lottery s today rand (Except.ok pick) uid
        = (PlayResult.success msg user.balance r r 0, s2)) := by
  have hsd : sameDay user.last_lottery_date today = true := by simp [sameDay, hd]
  constructor
  · intro hc
    exact play_lottery_limit s today rand _ uid user hu hsd hc
  · intro hc hb
    have hel : sameDay user.last_lottery_date today = true →
        user.daily_lottery_count.getD 0 < max_daily_attempts := by
      intro _
      rw [hc]
      decide
    rw [play_lottery_eligible s today rand _ uid user hu hel]
    have hnc : newCountOf user today = max_daily_attempts := by
      rw [newCountOf, if_pos hsd, hc]
      decide
    obtain ⟨msg, r, s2, hs⟩ :=
      settle_ok_success s today rand pick uid user.balance (newCountOf user today)
        (not_le.mpr hb)
    exact ⟨msg, r, s2, by rw [hs, hnc, sub_self]⟩

/-- Store refuting C4 as stated: the boundary user has count
`max_daily_attempts - 1` and `last_play_date = today` but balance 0. -/
def c4zero : Store := fun u =>
  if u = "carol" then some ⟨0, some ⟨2026, 10, 12⟩, some 9⟩ else none

/-- C4 counterexample: the claim promises success for every user with
`daily_play_count = max_daily_attempts - 1` and `last_play_date = today`,
but a zero-balance such user fails with the insufficient-balance message
(line 66 fires after the limit check), so the play is not a success. -/
theorem C4_counterexample :
    play_lottery c4zero ⟨2026, 10, 12⟩ 1 (Except.ok none) "carol"
      = (PlayResult.failure msgInsufficient, c4zero) ∧
    (play_lottery c4zero ⟨2026, 10, 12⟩ 1 (Except.ok none) "carol").1.isSuccess = false := by
  have h := play_lottery_eligible c4zero ⟨2026, 10, 12⟩ 1 (Except.ok none) "carol"
    ⟨0, some ⟨2026, 10, 12⟩, some 9⟩ rfl (by decide)
  rw [settle_insufficient _ _ _ _ _ _ _ (by decide)] at h
  exact ⟨h, by rw [h]; rfl⟩

/-- A boundary user at the limit for the witness of C4 part one. -/
def c4atLimit : Store := fun u =>
  if u = "erin" then some ⟨5, some ⟨2026, 10, 12⟩, some 10⟩ else none

/-- A boundary user one below the limit for the witness of C4 part two. -/
def c4under : Store := fun u =>
  if u = "dave" then some ⟨5, some ⟨2026, 10, 12⟩, some 9⟩ else none

theorem C4_witness :
    play_lottery c4atLimit ⟨2026, 10, 12⟩ 7 (Except.ok none) "erin"
      = (PlayResult.failure msgDailyLimit, c4atLimit) ∧
    (∃ msg r s2, play_lottery c4under ⟨2026, 10, 12⟩ 7 (Except.ok none) "dave"
      = (PlayResult.success msg 5 r r 0, s2)) := by
  constructor
  · exact (C4_daily_limit_boundary c4atLimit ⟨2026, 10, 12⟩ 7 none "erin"
      ⟨5, some ⟨2026, 10, 12⟩, some 10⟩ rfl rfl).1 (by decide)
  · exact (C4_daily_limit_boundary c4under ⟨2026, 10, 12⟩ 7 none "dave"
      ⟨5, some ⟨2026, 10, 12⟩, some 9⟩ rfl rfl).2 (by decide) (by decide)

/-! ### Claim C5 -/

/-- C5 (amended): a user whose stored `last_play_date` is some date other
than today and whose balance is POSITIVE succeeds regardless of the stored
count — even at `max_daily_attempts` — and the persisted row carries
`daily_lottery_count = 1` and `last_lottery_date = today`.  (The
positive-balance hypothesis is forced: the original claim is refuted on a
zero-balance user by `C5_counterexample`.)  `hpick` is the
`_get_random_user` contract: the SQL at line 34 never returns the player. -/
theorem C5_date_rollover (s : Store) (today d : Date) (rand : Nat)
    (pick : Option String) (uid : String) (user : UserRow)
    (hu : s uid = some user) (hd : user.last_lottery_date = some d)
    (hne : d ≠ today) (hb : 0 < user.balance)
    (hpick : ∀ t, pick = some t → t ≠ uid) :
    ∃ msg r s2, play_lottery s today rand (Except.ok pick) uid
      = (PlayResult.success msg user.balance r r (max_daily_attempts - 1), s2) ∧
      s2 uid = some ⟨r, some today, some 1⟩ := by
  have hsd : sameDay user.last_lottery_date today = false := by
    simp [sameDay, hd, hne]
  have hel : sameDay user.last_lottery_date today = true →
      user.daily_lottery_count.getD 0 < max_daily_attempts := by
    rw [hsd]
    intro h
    cases h
  have hnc : newCountOf user today = 1 := by rw [newCountOf, hsd]; rfl
  rw [play_lottery_eligible s today rand _ uid user hu hel, hnc]
  obtain ⟨msg, r, s2, hs, hrow, _⟩ :=
    settle_ok_full s today rand pick uid user.balance 1 user
      (not_le.mpr hb) hu hpick
  exact ⟨msg, r, s2, hs, hrow⟩

/-- Store refuting C5 as stated: yesterday's player with count at the limit
but balance 0. -/
def c5zero : Store := fun u =>
  if u = "frank" then some ⟨0, some ⟨2026, 10, 11⟩, some 10⟩ else none

/-- C5 counterexample: the claim promises success for every user whose
`last_play_date` is not today, but a zero-balance such user fails with the
insufficient-balance message, so the play is not a success. -/
theorem C5_counterexample :
    play_lottery c5zero ⟨2026, 10, 12⟩ 1 (Except.ok none) "frank"
      = (PlayResult.failure msgInsufficient, c5zero) ∧
    (play_lottery c5zero ⟨2026, 10, 12⟩ 1 (Except.ok none) "frank").1.isSuccess = false := by
  have h := play_lottery_eligible c5zero ⟨2026, 10, 12⟩ 1 (Except.ok none) "frank"
    ⟨0, some ⟨2026, 10, 11⟩, some 10⟩ rfl (by decide)
  rw [settle_insufficient _ _ _ _ _ _ _ (by decide)] at h
  exact ⟨h, by rw [h]; rfl⟩

/-- Yesterday's player, count maxed, positive balance: C5 witness input. -/
def c5wstore : Store := fun u =>
  if u = "gail" then some ⟨8, some ⟨2026, 10, 11⟩, some 10⟩ else none

theorem C5_witness :
    ∃ msg r s2, play_lottery c5wstore ⟨2026, 10, 12⟩ 60 (Except.ok none) "gail"
      = (PlayResult.success msg 8 r r (max_daily_attempts - 1), s2) ∧
      s2 "gail" = some ⟨r, some ⟨2026, 10, 12⟩, some 1⟩ :=
  C5_date_rollover c5wstore ⟨2026, 10, 12⟩ ⟨2026, 10, 11⟩ 60 none "gail"
    ⟨8, some ⟨2026, 10, 11⟩, some 10⟩ rfl rfl (by decide) (by decide)
    (fun t ht => by cases ht)

/-! ### Claim C6 -/

/-- C6: a user with non-positive balance who is not over the daily limit
always gets the insufficient-balance failure, for every draw and every
random-user outcome (including a raising one), and the store is returned
completely untouched — in particular `daily_lottery_count` and
`last_lottery_date` are not advanced. -/
theorem C6_insufficient_balance_no_mutation (s : Store) (today : Date) (rand : Nat)
    (pick : Except DbErr (Option String)) (uid : String) (user : UserRow)
    (hu : s uid = some user) (hb : user.balance ≤ 0)
    (hel : sameDay user.last_lottery_date today = true →
      user.daily_lottery_count.getD 0 < max_daily_attempts) :
    play_lottery s today rand pick uid = (PlayResult.failure msgInsufficient, s) := by
  rw [play_lottery_eligible s today rand pick uid user hu hel]
  exact settle_insufficient s today rand pick uid user.balance (newCountOf user today) hb

/-- Zero-balance user under the limit: C6 witness input. -/
def c6store : Store := fun u =>
  if u = "hank" then some ⟨0, some ⟨2026, 10, 12⟩, some 3⟩ else none

theorem C6_witness :
    c6store "hank" = some ⟨0, some ⟨2026, 10, 12⟩, some 3⟩ ∧
    play_lottery c6store ⟨2026, 10, 12⟩ 42 (Except.ok none) "hank"
      = (PlayResult.failure msgInsufficient, c6store) :=
  ⟨rfl, C6_insufficient_balance_no_mutation c6store ⟨2026, 10, 12⟩ 42 (Except.ok none)
    "hank" ⟨0, some ⟨2026, 10, 12⟩, some 3⟩ rfl (by decide) (by decide)⟩

/-! ### Claim C8 -/

/-- C8: calling the play on a `user_id` with no account row never mutates
the store and always returns the user-not-found failure, for every draw
and every random-user outcome. -/
theorem C8_missing_user_no_mutation (s : Store) (today : Date) (rand : Nat)
    (pick : Except DbErr (Option String)) (uid : String) (h : s uid = none) :
    play_lottery s today rand pick uid = (PlayResult.failure msgUserNotFound, s) :=
  play_lottery_absent s today rand pick uid h

/-- The store with no rows at all: C8 witness input. -/
def emptyStore : Store := fun _ => none

theorem C8_witness :
    emptyStore "nobody" = none ∧
    play_lottery emptyStore ⟨2026, 10, 12⟩ 1 (Except.ok none) "nobody"
      = (PlayResult.failure msgUserNotFound, emptyStore) :=
  ⟨rfl, C8_missing_user_no_mutation emptyStore ⟨2026, 10, 12⟩ 1 (Except.ok none)
    "nobody" rfl⟩

/-! ### Claim C2 -/

/-- C2: for an account with positive balance under the daily limit, a call
with a real draw (`1 ≤ rand ≤ 100`) succeeds and applies exactly one of
the five outcomes: the guards `outcomeOf rand = o` of the disjunction are
mutually exclusive because `outcomeOf` is a function into an enumeration
with distinct constructors, so precisely one disjunct holds.  For the
non-transfer outcomes the persisted post-call balance lies in
`{0, bet, 2*bet, 10*bet}` where `bet` is the pre-call balance.  `hpick`
is the `_get_random_user` contract (its SQL never returns the player). -/
theorem C2_one_outcome_per_call (s : Store) (today : Date) (rand : Nat)
    (pick : Option String) (uid : String) (user : UserRow)
    (hu : s uid = some user) (hb : 0 < user.balance)
    (hel : sameDay user.last_lottery_date today = true →
      user.daily_lottery_count.getD 0 < max_daily_attempts)
    (hr1 : 1 ≤ rand) (hr2 : rand ≤ 100)
    (hpick : ∀ t, pick = some t → t ≠ uid) :
    ∃ msg r s2, play_lottery s today rand (Except.ok pick) uid
      = (PlayResult.success msg user.balance r r
          (max_daily_attempts - newCountOf user today), s2) ∧
      ((outcomeOf rand = Outcome.loss ∧ r = 0) ∨
       (outcomeOf rand = Outcome.refund ∧ r = user.balance) ∨
       (outcomeOf rand = Outcome.double ∧ r = user.balance * 2) ∨
       outcomeOf rand = Outcome.transfer ∨
       (outcomeOf rand = Outcome.jackpot ∧ r = user.balance * 10)) ∧
      (outcomeOf rand ≠ Outcome.transfer →
        s2 uid = some ⟨r, some today, some (newCountOf user today)⟩ ∧
        (r = 0 ∨ r = user.balance ∨ r = user.balance * 2 ∨
          r = user.balance * 10)) := by
  rw [play_lottery_eligible s today rand _ uid user hu hel]
  obtain ⟨msg, r, s2, hs, hrow, hcase⟩ :=
    settle_ok_full s today rand pick uid user.balance (newCountOf user today) user
      (not_le.mpr hb) hu hpick
  refine ⟨msg, r, s2, hs, ?_, ?_⟩
  · rcases hcase with ⟨hA, hr, -⟩ | ⟨hA, hB, hr, -⟩ | ⟨hA, hB, hr, -⟩ |
      ⟨hA, hB, t, hp2, hr, -⟩ | ⟨hA, hB, hp2, hr, -⟩ | ⟨hA, hr, -⟩
    · exact Or.inl ⟨outcomeOf_loss rand hA, hr⟩
    · exact Or.inr (Or.inl ⟨outcomeOf_refund rand hA hB, hr⟩)
    · exact Or.inr (Or.inr (Or.inl ⟨outcomeOf_double rand hA hB, hr⟩))
    · exact Or.inr (Or.inr (Or.inr (Or.inl (outcomeOf_transfer rand hA hB))))
    · exact Or.inr (Or.inr (Or.inr (Or.inl (outcomeOf_transfer rand hA hB))))
    · exact Or.inr (Or.inr (Or.inr (Or.inr ⟨outcomeOf_jackpot rand hA, hr⟩)))
  · intro hntr
    refine ⟨hrow, ?_⟩
    rcases hcase with ⟨hA, hr, -⟩ | ⟨hA, hB, hr, -⟩ | ⟨hA, hB, hr, -⟩ |
      ⟨hA, hB, t, hp2, hr, -⟩ | ⟨hA, hB, hp2, hr, -⟩ | ⟨hA, hr, -⟩
    · exact Or.inl hr
    · exact Or.inr (Or.inl hr)
    · exact Or.inr (Or.inr (Or.inl hr))
    · exact absurd (outcomeOf_transfer rand hA hB) hntr
    · exact absurd (outcomeOf_transfer rand hA hB) hntr
    · exact Or.inr (Or.inr (Or.inr hr))

/-- Fresh positive-balance user for the C2 witness. -/
def c2wstore : Store := fun u => if u = "eve" then some ⟨7, none, none⟩ else none

theorem C2_witness :
    ∃ msg r s2, play_lottery c2wstore ⟨2026, 10, 12⟩ 60 (Except.ok none) "eve"
      = (PlayResult.success msg 7 r r 9, s2) := by
  obtain ⟨msg, r, s2, hs, -, -⟩ :=
    C2_one_outcome_per_call c2wstore ⟨2026, 10, 12⟩ 60 none "eve" ⟨7, none, none⟩
      rfl (by decide) (by decide) (by decide) (by decide) (fun t ht => by cases ht)
  refine ⟨msg, r, s2, ?_⟩
  rw [hs]
  norm_num [newCountOf, sameDay, max_daily_attempts]

/-! ### Claim C3 -/

/-- C3: when the draw lands in the transfer range and another user `t`
exists, the stake is conserved: the sender ends at exactly 0, the receiver
is credited exactly the bet, the conservation equation
`sender_after + receiver_after - receiver_before = bet` holds, and every
other row of the store is untouched, so the total supply is unchanged. -/
theorem C3_transfer_conserves_stake (s : Store) (today : Date) (rand : Nat)
    (uid t : String) (user recv : UserRow)
    (hu : s uid = some user) (hb : 0 < user.balance)
    (hel : sameDay user.last_lottery_date today = true →
      user.daily_lottery_count.getD 0 < max_daily_attempts)
    (hr1 : 80 < rand) (hr2 : rand ≤ 99)
    (ht : t ≠ uid) (hrecv : s t = some recv) :
    ∃ s2, play_lottery s today rand (Except.ok (some t)) uid
      = (PlayResult.success (transferMsg user.balance t) user.balance 0 0
          (max_daily_attempts - newCountOf user today), s2) ∧
      ∃ srow rrow, s2 uid = some srow ∧ s2 t = some rrow ∧
        srow.balance = 0 ∧ rrow.balance = recv.balance + user.balance ∧
        srow.balance + rrow.balance - recv.balance = user.balance ∧
        ∀ v, v ≠ uid → v ≠ t → s2 v = s v := by
  rw [play_lottery_eligible s today rand _ uid user hu hel]
  rw [settle_transfer_found s today rand uid t user.balance (newCountOf user today)
    (not_le.mpr hb) hr1 hr2]
  have hX : addBalance (setBalance s uid 0) t user.balance uid
      = some { user with balance := 0 } := by
    rw [addBalance_ne _ _ _ _ (Ne.symm ht), setBalance_self, hu]
    rfl
  refine ⟨_, rfl, ⟨0, some today, some (newCountOf user today)⟩,
    { recv with balance := recv.balance + user.balance }, ?_, ?_, rfl, rfl, ?_, ?_⟩
  · rw [record_add_self _ _ _ _ _ _ hX]
    simp
  · rw [record_add_ne _ _ _ _ _ _ ht, addBalance_self, setBalance_ne _ _ _ _ ht, hrecv]
    rfl
  · show (0 : Int) + (recv.balance + user.balance) - recv.balance = user.balance
    ring
  · intro v hvu hvt
    rw [record_add_ne _ _ _ _ _ _ hvu, addBalance_ne _ _ _ _ hvt,
      setBalance_ne _ _ _ _ hvu]

/-- Two-user store for the C3 witness: `ivy` plays, `jack` receives. -/
def c3wstore : Store := fun u =>
  if u = "ivy" then some ⟨50, none, none⟩
  else if u = "jack" then some ⟨20, none, some 2⟩ else none

theorem C3_witness :
    ∃ s2 srow rrow,
      play_lottery c3wstore ⟨2026, 10, 12⟩ 90 (Except.ok (some "jack")) "ivy"
        = (PlayResult.success (transferMsg 50 "jack") 50 0 0 9, s2) ∧
      s2 "ivy" = some srow ∧ s2 "jack" = some rrow ∧
      srow.balance + rrow.balance - 20 = 50 := by
  obtain ⟨s2, hs, srow, rrow, h1, h2, -, -, h5, -⟩ :=
    C3_transfer_conserves_stake c3wstore ⟨2026, 10, 12⟩ 90 "ivy" "jack"
      ⟨50, none, none⟩ ⟨20, none, some 2⟩ rfl (by decide) (by decide)
      (by omega) (by omega) (by decide) rfl
  refine ⟨s2, srow, rrow, ?_, h1, h2, h5⟩
  rw [hs]
  norm_num [newCountOf, sameDay, max_daily_attempts]

/-! ### Claim C7 -/

/-- C7: when the draw lands in the transfer range but no other user exists
(`_get_random_user` returns `None`), the play falls back to a refund: the
player is credited exactly the bet (the persisted balance equals the bet)
and the outcome message differs from the transfer message at every bet
amount and every target. -/
theorem C7_transfer_fallback_refunds (s : Store) (today : Date) (rand : Nat)
    (uid : String) (user : UserRow)
    (hu : s uid = some user) (hb : 0 < user.balance)
    (hel : sameDay user.last_lottery_date today = true →
      user.daily_lottery_count.getD 0 < max_daily_attempts)
    (hr1 : 80 < rand) (hr2 : rand ≤ 99) :
    ∃ s2, play_lottery s today rand (Except.ok none) uid
      = (PlayResult.success msgTransferFallback user.balance user.balance user.balance
          (max_daily_attempts - newCountOf user today), s2) ∧
      s2 uid = some ⟨user.balance, some today, some (newCountOf user today)⟩ ∧
      ∀ b t2, msgTransferFallback ≠ transferMsg b t2 := by
  rw [play_lottery_eligible s today rand _ uid user hu hel]
  rw [settle_transfer_fallback s today rand uid user.balance (newCountOf user today)
    (not_le.mpr hb) hr1 hr2]
  have hset : setBalance s uid 0 uid = some { user with balance := 0 } := by
    rw [setBalance_self, hu]
    rfl
  refine ⟨_, rfl, ?_, fun b t2 => transferFallback_ne_transferMsg b t2⟩
  rw [record_add_self _ _ _ _ _ _ hset]
  simp

/-- Lone user for the C7 witness: nobody else to transfer to. -/
def c7wstore : Store := fun u => if u = "kate" then some ⟨9, none, none⟩ else none

theorem C7_witness :
    ∃ s2, play_lottery c7wstore ⟨2026, 10, 12⟩ 85 (Except.ok none) "kate"
      = (PlayResult.success msgTransferFallback 9 9 9 9, s2) ∧
      s2 "kate" = some ⟨9, some ⟨2026, 10, 12⟩, some 1⟩ := by
  obtain ⟨s2, hs, hrow, -⟩ :=
    C7_transfer_fallback_refunds c7wstore ⟨2026, 10, 12⟩ 85 "kate" ⟨9, none, none⟩
      rfl (by decide) (by decide) (by omega) (by omega)
  refine ⟨s2, ?_, ?_⟩
  · rw [hs]
    norm_num [newCountOf, sameDay, max_daily_attempts]
  · rw [hrow]
    norm_num [newCountOf, sameDay]

/-! ### Claim C9 -/

/-- C9: a stored NULL `daily_lottery_count` is read as 0 (`user[2] or 0`,
line 56): such a user is never blocked by the daily limit, even when
`last_play_date` is today, and a successful play persists count 1 — on the
same date `new_count = 0 + 1 = 1`, on a new date `new_count = 1`. -/
theorem C9_null_count_treated_as_zero (s : Store) (today : Date) (rand : Nat)
    (pick : Option String) (uid : String) (user : UserRow)
    (hu : s uid = some user) (hc : user.daily_lottery_count = none)
    (hpick : ∀ t, pick = some t → t ≠ uid) :
    (play_lottery s today rand (Except.ok pick) uid).1
        ≠ PlayResult.failure msgDailyLimit ∧
    (0 < user.balance →
      ∃ msg r s2, play_lottery s today rand (Except.ok pick) uid
        = (PlayResult.success msg user.balance r r (max_daily_attempts - 1), s2) ∧
        s2 uid = some ⟨r, some today, some 1⟩) := by
  have hel : sameDay user.last_lottery_date today = true →
      user.daily_lottery_count.getD 0 < max_daily_attempts := by
    intro _
    rw [hc]
    decide
  have hnc : newCountOf user today = 1 := by
    rw [newCountOf, hc]
    simp
  rw [play_lottery_eligible s today rand _ uid user hu hel, hnc]
  constructor
  · rcases le_or_lt user.balance 0 with hb | hb
    · rw [settle_insufficient _ _ _ _ _ _ _ hb]
      show PlayResult.failure msgInsufficient ≠ PlayResult.failure msgDailyLimit
      decide
    · obtain ⟨msg, r, s2, hs⟩ :=
        settle_ok_success s today rand pick uid user.balance 1 (not_le.mpr hb)
      rw [hs]
      simp
  · intro hb
    obtain ⟨msg, r, s2, hs, hrow, -⟩ :=
      settle_ok_full s today rand pick uid user.balance 1 user (not_le.mpr hb) hu hpick
    exact ⟨msg, r, s2, hs, hrow⟩

/-- User with a NULL count column and today's date for the C9 witness. -/
def c9wstore : Store := fun u =>
  if u = "liam" then some ⟨4, some ⟨2026, 10, 12⟩, none⟩ else none

theorem C9_witness :
    (play_lottery c9wstore ⟨2026, 10, 12⟩ 30 (Except.ok none) "liam").1
        ≠ PlayResult.failure msgDailyLimit ∧
    ∃ msg r s2, play_lottery c9wstore ⟨2026, 10, 12⟩ 30 (Except.ok none) "liam"
      = (PlayResult.success msg 4 r r (max_daily_attempts - 1), s2) ∧
      s2 "liam" = some ⟨r, some ⟨2026, 10, 12⟩, some 1⟩ := by
  have h := C9_null_count_treated_as_zero c9wstore ⟨2026, 10, 12⟩ 30 none "liam"
    ⟨4, some ⟨2026, 10, 12⟩, none⟩ rfl rfl (fun t ht => by cases ht)
  exact ⟨h.1, h.2 (by decide)⟩

/-! ### Claim C10 -/

/-- C10: every successful play returns a dict whose `balance` field equals
its `result` field (both are `result_amount` in the success constructor,
lines 110-111), and the persisted balance after commit is exactly that
amount, independent of the pre-call balance, because line 70 zeroes the
balance before the payout credit; after a total loss or a successful
transfer the persisted balance is exactly 0. -/
theorem C10_balance_field_equals_result (s : Store) (today : Date) (rand : Nat)
    (pick : Option String) (uid : String) (user : UserRow)
    (hu : s uid = some user) (hb : 0 < user.balance)
    (hel : sameDay user.last_lottery_date today = true →
      user.daily_lottery_count.getD 0 < max_daily_attempts)
    (hpick : ∀ t, pick = some t → t ≠ uid) :
    ∃ msg r s2, play_lottery s today rand (Except.ok pick) uid
      = (PlayResult.success msg user.balance r r
          (max_daily_attempts - newCountOf user today), s2) ∧
      s2 uid = some ⟨r, some today, some (newCountOf user today)⟩ ∧
      ((rand ≤ 50 ∨ (80 < rand ∧ rand ≤ 99 ∧ pick ≠ none)) → r = 0) := by
  rw [play_lottery_eligible s today rand _ uid user hu hel]
  obtain ⟨msg, r, s2, hs, hrow, hcase⟩ :=
    settle_ok_full s today rand pick uid user.balance (newCountOf user today) user
      (not_le.mpr hb) hu hpick
  refine ⟨msg, r, s2, hs, hrow, ?_⟩
  rintro (h50 | ⟨h80, h99, hp⟩)
  · rcases hcase with ⟨hA, hr, -⟩ | ⟨hA, hB, hr, -⟩ | ⟨hA, hB, hr, -⟩ |
      ⟨hA, hB, t, hp2, hr, -⟩ | ⟨hA, hB, hp2, hr, -⟩ | ⟨hA, hr, -⟩
    · exact hr
    · omega
    · omega
    · omega
    · omega
    · omega
  · rcases hcase with ⟨hA, hr, -⟩ | ⟨hA, hB, hr, -⟩ | ⟨hA, hB, hr, -⟩ |
      ⟨hA, hB, t, hp2, hr, -⟩ | ⟨hA, hB, hp2, hr, -⟩ | ⟨hA, hr, -⟩
    · omega
    · omega
    · omega
    · exact hr
    · exact absurd hp2 hp
    · omega

/-- Fresh user for the C10 witness; draw 10 lands on total loss. -/
def c10wstore : Store := fun u => if u = "mona" then some ⟨6, none, none⟩ else none

theorem C10_witness :
    ∃ msg r s2, play_lottery c10wstore ⟨2026, 10, 12⟩ 10 (Except.ok none) "mona"
      = (PlayResult.success msg 6 r r 9, s2) ∧
      s2 "mona" = some ⟨r, some ⟨2026, 10, 12⟩, some 1⟩ ∧ r = 0 := by
  obtain ⟨msg, r, s2, hs, hrow, hz⟩ :=
    C10_balance_field_equals_result c10wstore ⟨2026, 10, 12⟩ 10 none "mona"
      ⟨6, none, none⟩ rfl (by decide) (by decide) (fun t ht => by cases ht)
  refine ⟨msg, r, s2, ?_, ?_, hz (Or.inl (by omega))⟩
  · rw [hs]
    norm_num [newCountOf, sameDay, max_daily_attempts]
  · rw [hrow]
    norm_num [newCountOf, sameDay]

end Lotto
